import Mathlib

/-!
# Verification of the Panasonic Japan HACS integration

A shallow embedding, in Lean 4, of the core of the `panasonic_japan`
custom component: the OAuth2/PKCE authentication flow
(`config_flow.py`), the token-refresh-aware API client (`api.py`) and
the polling coordinator (`coordinator.py`), together with theorems
checking the natural-language specification against the embedded code.

Modelling conventions:

* Python byte strings are `List Nat` with every element `< 256`;
  machine words in SHA-256 are `Nat` reduced modulo `2 ^ 32`.
* Python `requests` network traffic is an explicit oracle (`Network`):
  the `n`-th resource-API request receives `net.http n`, the `n`-th
  POST to the token endpoint receives `net.refreshPost n`.  Call
  counters are threaded explicitly, and every operation also returns a
  trace of observable events (HTTP requests, token-endpoint POSTs,
  config-entry persistence), so "exactly once" claims become trace
  equalities.
* Python exceptions become `Except` values; `PanasonicAPIError(msg)
  from err` is `Exc.panasonic msg (some cause)`, `HTTPError` raised by
  `response.raise_for_status()` is `Exc.httpError status text`.
* Python float division in `calculate_electricity_usage` is modelled
  as exact division in `ℚ`.
* `datetime.now` (the `X-Reizo-Date` header) is a string parameter.
-/

namespace PanasonicJapan

/-! ## Generic helpers -/

deriving instance DecidableEq for Except

/-- Prefix test on character lists. -/
def listStartsWith : List Char → List Char → Bool
  | _, [] => true
  | [], _ :: _ => false
  | c :: rest, p :: ps => c == p && listStartsWith rest ps

/-- Substring test on character lists. -/
def containsSub (cs pat : List Char) : Bool :=
  match cs with
  | [] => listStartsWith [] pat
  | c :: rest => listStartsWith (c :: rest) pat || containsSub rest pat

/-- Substring test, modelling Python's `"401" in str(err)`. -/
def strContains (s pat : String) : Bool :=
  containsSub s.data pat.data

/-- Python `str.split(sep)` for a one-character separator (keeps empty
fields, like Python). -/
def splitOnChar (sep : Char) : List Char → List (List Char)
  | [] => [[]]
  | c :: rest =>
    let r := splitOnChar sep rest
    if c == sep then [] :: r
    else (c :: r.headD []) :: r.tail

/-- Python `str.strip()` (whitespace at both ends removed). -/
def pyStrip (s : String) : String :=
  String.mk (((s.data.dropWhile Char.isWhitespace).reverse.dropWhile
    Char.isWhitespace).reverse)

/-- Python truthiness of an optional string (`None` and `""` are falsy). -/
def truthyOpt (o : Option String) : Bool :=
  match o with
  | none => false
  | some s => !(s == "")

/-! ## Percent-encoding (`urllib.parse.quote` / `unquote`), at byte level -/

/-- The characters `urllib.parse.quote` never escapes:
ASCII letters, digits and `_.-~`. -/
def isAlwaysSafeByte (b : Nat) : Bool :=
  (65 ≤ b && b ≤ 90) || (97 ≤ b && b ≤ 122) || (48 ≤ b && b ≤ 57) ||
  b == 95 || b == 46 || b == 45 || b == 126

/-- A byte `quote(s, safe=...)` leaves unescaped: always-safe bytes plus
the caller-supplied `safe` set (`[47]`, i.e. `/`, is `quote`'s default). -/
def isSafeByte (safe : List Nat) (b : Nat) : Bool :=
  isAlwaysSafeByte b || safe.contains b

/-- Uppercase hexadecimal digit, for `%XX` escapes. -/
def hexDigit (n : Nat) : Char :=
  (("0123456789ABCDEF".data).getD n 'A')

/-- Percent-encode one byte: safe bytes pass through, others become `%XX`. -/
def percentEncodeByte (safe : List Nat) (b : Nat) : List Char :=
  if isSafeByte safe b then [Char.ofNat b]
  else ['%', hexDigit (b / 16), hexDigit (b % 16)]

/-- `urllib.parse.quote` on a byte sequence. -/
def percentEncodeBytes (safe : List Nat) (bs : List Nat) : List Char :=
  match bs with
  | [] => []
  | b :: rest => percentEncodeByte safe b ++ percentEncodeBytes safe rest

/-- Value of a hexadecimal digit character (case-insensitive). -/
def hexVal (c : Char) : Option Nat :=
  if '0' ≤ c ∧ c ≤ '9' then some (c.toNat - 48)
  else if 'A' ≤ c ∧ c ≤ 'F' then some (c.toNat - 55)
  else if 'a' ≤ c ∧ c ≤ 'f' then some (c.toNat - 87)
  else none

/-- `urllib.parse.unquote_to_bytes`: decode `%XX` escapes, leaving an
invalid escape (or a bare trailing `%`) in place, like Python does. -/
def percentDecodeBytes : List Char → List Nat
  | [] => []
  | '%' :: c1 :: c2 :: rest =>
    (match hexVal c1, hexVal c2 with
     | some hi, some lo => (16 * hi + lo) :: percentDecodeBytes rest
     | _, _ => 37 :: percentDecodeBytes (c1 :: c2 :: rest))
  | c :: rest => c.toNat :: percentDecodeBytes rest

/-- UTF-8 encoding of one code point. -/
def utf8EncodeChar (c : Nat) : List Nat :=
  if c < 128 then [c]
  else if c < 2048 then [192 + c / 64, 128 + c % 64]
  else if c < 65536 then [224 + c / 4096, 128 + (c / 64) % 64, 128 + c % 64]
  else [240 + c / 262144, 128 + (c / 4096) % 64, 128 + (c / 64) % 64, 128 + c % 64]

/-- UTF-8 bytes of a string (Python's `s.encode("utf-8")`). -/
def strToBytes (s : String) : List Nat :=
  (s.data.map (fun c => utf8EncodeChar c.toNat)).flatten

/-- `urllib.parse.quote(s, safe=...)` on a string. -/
def quoteStr (safe : List Nat) (s : String) : String :=
  String.mk (percentEncodeBytes safe (strToBytes s))

/-- `PanasonicAPI._url_encode_appliance_id`: `quote(appliance_id, safe="")`. -/
def url_encode_appliance_id (appliance_id : String) : String :=
  quoteStr [] appliance_id

/-! ## Base64 (`base64.b64encode` / `base64.urlsafe_b64encode`) -/

/-- The standard base64 alphabet. -/
def stdAlphabet (n : Nat) : Char :=
  ("ABCDEFGHIJKLMNOPQRSTUVWXYZabcdefghijklmnopqrstuvwxyz0123456789+/".data).getD n 'A'

/-- The URL-safe base64 alphabet (`+/` replaced by `-_`). -/
def urlAlphabet (n : Nat) : Char :=
  ("ABCDEFGHIJKLMNOPQRSTUVWXYZabcdefghijklmnopqrstuvwxyz0123456789-_".data).getD n 'A'

/-- Base64 encoding over three-byte groups, with `=` padding, over a
given alphabet.  `base64.b64encode` is `b64chunks stdAlphabet`,
`base64.urlsafe_b64encode` is `b64chunks urlAlphabet`. -/
def b64chunks (alpha : Nat → Char) (bs : List Nat) : List Char :=
  match bs with
  | [] => []
  | [b0] =>
    [alpha (b0 >>> 2), alpha ((b0 &&& 3) <<< 4), '=', '=']
  | [b0, b1] =>
    [alpha (b0 >>> 2), alpha (((b0 &&& 3) <<< 4) ||| (b1 >>> 4)),
     alpha ((b1 &&& 15) <<< 2), '=']
  | b0 :: b1 :: b2 :: rest =>
    alpha (b0 >>> 2) :: alpha (((b0 &&& 3) <<< 4) ||| (b1 >>> 4)) ::
    alpha (((b1 &&& 15) <<< 2) ||| (b2 >>> 6)) :: alpha (b2 &&& 63) ::
    b64chunks alpha rest

/-- Python's `str.rstrip("=")` on a character list. -/
def rstripEq (cs : List Char) : List Char :=
  (cs.reverse.dropWhile (fun c => c == '=')).reverse

/-! ## SHA-256 (`hashlib.sha256`), over `Nat` words reduced mod `2 ^ 32` -/

/-- Addition modulo `2 ^ 32`. -/
def add32 (a b : Nat) : Nat := (a + b) % 4294967296

/-- Right rotation of a 32-bit word. -/
def rotr (n x : Nat) : Nat :=
  (x >>> n) ||| ((x &&& (2 ^ n - 1)) <<< (32 - n))

/-- SHA-256 `Ch(e, f, g)`. -/
def shaCh (e f g : Nat) : Nat := (e &&& f) ^^^ ((e ^^^ 4294967295) &&& g)

/-- SHA-256 `Maj(a, b, c)`. -/
def shaMaj (a b c : Nat) : Nat := (a &&& b) ^^^ (a &&& c) ^^^ (b &&& c)

/-- SHA-256 big sigma 0. -/
def bsig0 (x : Nat) : Nat := rotr 2 x ^^^ rotr 13 x ^^^ rotr 22 x

/-- SHA-256 big sigma 1. -/
def bsig1 (x : Nat) : Nat := rotr 6 x ^^^ rotr 11 x ^^^ rotr 25 x

/-- SHA-256 small sigma 0. -/
def ssig0 (x : Nat) : Nat := rotr 7 x ^^^ rotr 18 x ^^^ (x >>> 3)

/-- SHA-256 small sigma 1. -/
def ssig1 (x : Nat) : Nat := rotr 17 x ^^^ rotr 19 x ^^^ (x >>> 10)

/-- The first 64 primes, from which the SHA-256 round constants derive. -/
def first64Primes : List Nat :=
  [2, 3, 5, 7, 11, 13, 17, 19, 23, 29, 31, 37, 41, 43, 47, 53,
   59, 61, 67, 71, 73, 79, 83, 89, 97, 101, 103, 107, 109, 113, 127, 131,
   137, 139, 149, 151, 157, 163, 167, 173, 179, 181, 191, 193, 197, 199, 211, 223,
   227, 229, 233, 239, 241, 251, 257, 263, 269, 271, 277, 281, 283, 293, 307, 311]

/-- Integer cube root by binary descent over 50 bits. -/
def icbrt (n : Nat) : Nat :=
  (List.range 50).foldl
    (fun acc i => let c := acc + 2 ^ (49 - i); if c ^ 3 ≤ n then c else acc) 0

/-- SHA-256 round constants: the first 32 bits of the fractional parts
of the cube roots of the first 64 primes. -/
def sha256K : List Nat :=
  first64Primes.map (fun p => icbrt (p * 2 ^ 96) % 4294967296)

/-- SHA-256 initial hash value: the first 32 bits of the fractional
parts of the square roots of the first 8 primes. -/
def sha256H0 : List Nat :=
  (first64Primes.take 8).map (fun p => Nat.sqrt (p * 2 ^ 64) % 4294967296)

/-- The message schedule `W[0..63]` from a 16-word block. -/
def msgSchedule (block : List Nat) : List Nat :=
  (List.range 48).foldl
    (fun w _ =>
      w ++ [add32 (add32 (ssig1 (w.getD (w.length - 2) 0)) (w.getD (w.length - 7) 0))
              (add32 (ssig0 (w.getD (w.length - 15) 0)) (w.getD (w.length - 16) 0))])
    block

/-- One SHA-256 compression round. -/
def shaRound (st : List Nat) (kw : Nat × Nat) : List Nat :=
  match st with
  | [a, b, c, d, e, f, g, h] =>
    let t1 := add32 (add32 (add32 h (bsig1 e)) (add32 (shaCh e f g) kw.1)) kw.2
    let t2 := add32 (bsig0 a) (shaMaj a b c)
    [add32 t1 t2, a, b, c, add32 d t1, e, f, g]
  | other => other

/-- SHA-256 compression of one 16-word block into the running hash. -/
def shaCompress (h : List Nat) (block : List Nat) : List Nat :=
  let w := msgSchedule block
  let st := (sha256K.zip w).foldl shaRound h
  (h.zip st).map (fun p => add32 p.1 p.2)

/-- SHA-256 padding: `0x80`, zeros to 56 mod 64, 8-byte big-endian bit length. -/
def sha256Pad (msg : List Nat) : List Nat :=
  msg ++ [128] ++ List.replicate ((119 - msg.length % 64) % 64) 0 ++
  (List.range 8).map (fun i => (msg.length * 8) / 2 ^ (8 * (7 - i)) % 256)

/-- Split padded bytes into 16-word (64-byte) big-endian blocks. -/
def sha256Blocks (padded : List Nat) : List (List Nat) :=
  (List.range (padded.length / 64)).map (fun i =>
    (List.range 16).map (fun j =>
      let b := fun k => padded.getD (64 * i + 4 * j + k) 0
      b 0 * 16777216 + b 1 * 65536 + b 2 * 256 + b 3))

/-- SHA-256 digest (32 bytes) of a byte sequence. -/
def sha256 (msg : List Nat) : List Nat :=
  let final := (sha256Blocks (sha256Pad msg)).foldl shaCompress sha256H0
  (final.map (fun w => [w / 16777216 % 256, w / 65536 % 256, w / 256 % 256, w % 256])).flatten

/-! ## Constants (`const.py` and `config_flow.py`) -/

/-- `API_BASE_URL` from `const.py`. -/
def API_BASE_URL : String := "https://app.ref.apws.panasonic.com/reizo/v3"

/-- `KAPF_API_BASE_URL` from `const.py`. -/
def KAPF_API_BASE_URL : String := "https://api.kitchen-appliances-pf.com/api/kapf/v1"

/-- `AUTH0_DOMAIN` from `const.py`. -/
def AUTH0_DOMAIN : String := "auth.digital.panasonic.com"

/-- `AUTH0_CLIENT_ID` from `const.py`. -/
def AUTH0_CLIENT_ID : String := "w7UI3iLByFFz3GOj6Ef6BCHfPczOcsy8"

/-- `AUTH0_AUDIENCE` from `const.py`. -/
def AUTH0_AUDIENCE : String :=
  "https://club.panasonic.jp/w7UI3iLByFFz3GOj6Ef6BCHfPczOcsy8/api/v1/"

/-- `API_KEY` from `const.py`. -/
def API_KEY : String := "x6pdB3r5z2eqDCgwf0gF1Ffre7Au7Km3YoFY0fDh"

/-- `YEN_PER_KWH` from `const.py`. -/
def YEN_PER_KWH : ℚ := 31

/-- `REDIRECT_URI` from `config_flow.py`. -/
def REDIRECT_URI : String :=
  "com.panasonic.jp.kitchenpocket.auth0://auth.digital.panasonic.com/android/com.panasonic.jp.kitchenpocket/callback"

/-- `SCOPE` from `config_flow.py`. -/
def SCOPE : String :=
  "openid kitchenpocket.service smartrf_prd.control eatpick.service offline_access"

/-! ## PKCE generator (`ConfigFlow._generate_pkce`) -/

/-- `ConfigFlow._generate_pkce`.  The secure random source is a
parameter: `rnd` models `secrets.token_bytes(32)` (32 bytes), `stateTok`
and `nonceTok` model the two `secrets.token_urlsafe(16)` draws.  Returns
`(code_verifier, code_challenge, state, nonce)` exactly as the source:
verifier is URL-safe base64 of the random bytes with `=` stripped, and
the challenge is URL-safe base64 of `sha256(verifier.encode("utf-8"))`
with `=` stripped. -/
def generate_pkce (rnd : List Nat) (stateTok nonceTok : String) :
    String × String × String × String :=
  let code_verifier := String.mk (rstripEq (b64chunks urlAlphabet rnd))
  let code_challenge_bytes := sha256 (strToBytes code_verifier)
  let code_challenge := String.mk (rstripEq (b64chunks urlAlphabet code_challenge_bytes))
  (code_verifier, code_challenge, stateTok, nonceTok)

/-! ## Authorization URL builder (`ConfigFlow._generate_login_url`) -/

/-- The fixed client-metadata JSON built in `_generate_login_url`:
`json.dumps` with `separators=(",", ":")` of the dict with keys
`name`, `env`, `version` in insertion order. -/
def auth0ClientJson : String :=
  "\x7b\"name\":\"Auth0.Android\",\"env\":\x7b\"android\":\"31\"\x7d,\"version\":\"2.5.0\"\x7d"

/-- `ConfigFlow._generate_login_url`: the Auth0 authorization URL.
`quote` is called with its default `safe="/"` (modelled as `[47]`) on
`SCOPE`, `AUTH0_AUDIENCE`, the base64 client metadata and
`REDIRECT_URI`; `response_type`, `code_challenge`,
`code_challenge_method`, `client_id`, `state` and `nonce` are
concatenated as-is. -/
def auth0ClientEncoded : String :=
  quoteStr [47] (String.mk (b64chunks stdAlphabet (strToBytes auth0ClientJson)))

def generate_login_url (code_challenge state nonce : String) : String :=
  let params : List (String × String) :=
    [("scope", quoteStr [47] SCOPE),
     ("audience", quoteStr [47] AUTH0_AUDIENCE),
     ("response_type", "code"),
     ("code_challenge", code_challenge),
     ("code_challenge_method", "S256"),
     ("auth0Client", auth0ClientEncoded),
     ("client_id", AUTH0_CLIENT_ID),
     ("redirect_uri", quoteStr [47] REDIRECT_URI),
     ("state", state),
     ("nonce", nonce)]
  let query_string := String.intercalate "&" (params.map (fun p => p.1 ++ "=" ++ p.2))
  "https://" ++ AUTH0_DOMAIN ++ "/authorize?" ++ query_string

/-- Spec-side variant of the URL builder, following the spec's words:
"all parameter values must be percent-encoded individually before
concatenation" — every value, not only the four the code quotes,
passes through `quote` (same default `safe="/"`). -/
def generate_login_url_spec (code_challenge state nonce : String) : String :=
  let params : List (String × String) :=
    [("scope", quoteStr [47] SCOPE),
     ("audience", quoteStr [47] AUTH0_AUDIENCE),
     ("response_type", quoteStr [47] "code"),
     ("code_challenge", quoteStr [47] code_challenge),
     ("code_challenge_method", quoteStr [47] "S256"),
     ("auth0Client", auth0ClientEncoded),
     ("client_id", quoteStr [47] AUTH0_CLIENT_ID),
     ("redirect_uri", quoteStr [47] REDIRECT_URI),
     ("state", quoteStr [47] state),
     ("nonce", quoteStr [47] nonce)]
  let query_string := String.intercalate "&" (params.map (fun p => p.1 ++ "=" ++ p.2))
  "https://" ++ AUTH0_DOMAIN ++ "/authorize?" ++ query_string

/-! ## Callback parser (`ConfigFlow._extract_code_from_callback`)

`urllib.parse.urlparse` / `parse_qs` are modelled after CPython's
`urlsplit` and `parse_qsl` (defaults: `allow_fragments=True`,
`keep_blank_values=False`, `strict_parsing=False`, separator `&`). -/

/-- ASCII letter test (`url[0].isascii() and url[0].isalpha()`). -/
def isAsciiAlpha (c : Char) : Bool :=
  ('a' ≤ c && c ≤ 'z') || ('A' ≤ c && c ≤ 'Z')

/-- CPython `scheme_chars`: letters, digits and `+-.`. -/
def isSchemeChar (c : Char) : Bool :=
  isAsciiAlpha c || ('0' ≤ c && c ≤ '9') || c == '+' || c == '-' || c == '.'

/-- `urlsplit` scheme handling: split off `scheme:` when the text up to
the first `:` is a scheme (the scheme itself is discarded here). -/
def stripScheme (cs : List Char) : List Char :=
  match cs.findIdx? (fun c => c == ':') with
  | none => cs
  | some i =>
    if 0 < i && isAsciiAlpha (cs.headD ' ') && ((cs.take i).drop 1).all isSchemeChar
    then cs.drop (i + 1) else cs

/-- Characters ending the netloc in `_splitnetloc`. -/
def isNetlocDelim (c : Char) : Bool := c == '/' || c == '?' || c == '#'

/-- `urlsplit` netloc handling: when the remainder starts with `//`,
consume the netloc and raise `ValueError` ("Invalid IPv6 URL") on an
unbalanced bracket, as CPython does. -/
def splitNetloc (cs : List Char) : Except Unit (List Char) :=
  match cs with
  | '/' :: '/' :: rest =>
    let netloc := rest.takeWhile (fun c => !isNetlocDelim c)
    if (netloc.contains '[' && !netloc.contains ']') ||
       (netloc.contains ']' && !netloc.contains '[') then Except.error ()
    else Except.ok (rest.dropWhile (fun c => !isNetlocDelim c))
  | _ => Except.ok cs

/-- The `query` component `urlparse(url).query`, or `Except.error` when
`urlsplit` raises.  Follows CPython: remove `\t\r\n`, split scheme,
split netloc (bracket check), split fragment at the first `#`, then the
query is everything after the first remaining `?`. -/
def urlsplit_query (url : String) : Except Unit String :=
  let cs := url.data.filter (fun c => !(c == '\t' || c == '\r' || c == '\n'))
  match splitNetloc (stripScheme cs) with
  | Except.error () => Except.error ()
  | Except.ok rest =>
    let beforeFrag := rest.takeWhile (fun c => !(c == '#'))
    Except.ok (String.mk
      (match beforeFrag.dropWhile (fun c => !(c == '?')) with
       | [] => []
       | _ :: t => t))

/-- `s.replace('+', ' ')`, applied by `parse_qsl` before unquoting. -/
def plusToSpace (cs : List Char) : List Char :=
  cs.map (fun c => if c == '+' then ' ' else c)

/-- `urllib.parse.unquote_plus` (bytes decoded 1:1 back to characters;
the inputs relevant here are ASCII). -/
def unquotePlus (cs : List Char) : String :=
  String.mk ((percentDecodeBytes (plusToSpace cs)).map Char.ofNat)

/-- `urllib.parse.parse_qsl(qs)` with default arguments: split on `&`,
skip empty fields, skip fields without `=`, skip fields whose value is
empty (`keep_blank_values=False`), and `+`/percent-decode both sides. -/
def parse_qsl (qs : String) : List (String × String) :=
  (splitOnChar '&' qs.data).foldr
    (fun nv acc =>
      if nv.isEmpty then acc
      else
        match nv.findIdx? (fun c => c == '=') with
        | none => acc
        | some i =>
          let value := nv.drop (i + 1)
          if value.isEmpty then acc
          else (unquotePlus (nv.take i), unquotePlus value) :: acc)
    []

/-- `ConfigFlow._extract_code_from_callback`: parse the query string and
return the first value of the `code` parameter
(`parse_qs(...).get("code", [None])[0]`); the `except` branch —
reached when `urlsplit` raises — also returns `None`. -/
def extract_code_from_callback (callback_url : String) : Option String :=
  match urlsplit_query callback_url with
  | Except.error _ => none
  | Except.ok q => ((parse_qsl q).find? (fun p => p.1 == "code")).map (fun p => p.2)

/-! ## Token responses and the setup flow step (`ConfigFlow.async_step_callback`) -/

/-- A parsed JSON token-endpoint response.  `none` models an absent
key (so `refresh_token = none` is the provider omitting it);
`hasOtherFields` records whether the JSON object carries further keys,
for Python dict truthiness. -/
structure TokenData where
  access_token : Option String
  refresh_token : Option String
  hasOtherFields : Bool
deriving DecidableEq, Repr

/-- Python truthiness of the token-response dict. -/
def TokenData.truthy (t : TokenData) : Bool :=
  t.access_token.isSome || t.refresh_token.isSome || t.hasOtherFields

/-- The nested `info` object of an appliance in the user-info response. -/
structure ApplianceInfo where
  applianceId : String
  productCode : String
deriving DecidableEq, Repr

/-- One element of `user_info["myAppliances"]`. -/
structure Appliance where
  eoj : Option String
  info : ApplianceInfo
deriving DecidableEq, Repr

/-- The data of the config entry created by `async_create_entry`:
exactly `access_token`, `appliance_id`, `product_code`, plus
`refresh_token` when one was stored. -/
structure FlowEntryData where
  access_token : String
  appliance_id : String
  product_code : String
  refresh_token : Option String
deriving DecidableEq, Repr

/-- Outcome of the callback step: re-show the form (with an error key),
abort because the unique id is already configured, or create the entry. -/
inductive FlowOutcome where
  | showCallbackForm (errorKey : Option String)
  | abortAlreadyConfigured
  | createEntry (title : String) (data : FlowEntryData)
deriving DecidableEq, Repr

/-- `ConfigFlow.async_step_callback`.  External collaborators are
oracles: `exchange` models `_exchange_code_for_tokens` (which returns
`None` when its own `except` branch fires), `user_info` models
`api.get_user_info()` — `Except.error` when it raises (caught by the
step's generic `except` as `"unknown"`), otherwise the
`myAppliances` list (an empty list covers a falsy or missing field) —
and `already_configured` models `_abort_if_unique_id_configured`. -/
def async_step_callback (code_verifier : String) (user_input : Option String)
    (exchange : String → String → Option TokenData)
    (user_info : Except Unit (List Appliance))
    (already_configured : Bool) : FlowOutcome :=
  match user_input with
  | none => FlowOutcome.showCallbackForm none
  | some input =>
    let callback_url := pyStrip input
    if callback_url == "" then FlowOutcome.showCallbackForm (some "callback_url_required")
    else
      match extract_code_from_callback callback_url with
      | none => FlowOutcome.showCallbackForm (some "invalid_callback_url")
      | some code =>
        if code == "" then FlowOutcome.showCallbackForm (some "invalid_callback_url")
        else
          match exchange code code_verifier with
          | none => FlowOutcome.showCallbackForm (some "token_exchange_failed")
          | some tok =>
            if !tok.truthy then FlowOutcome.showCallbackForm (some "token_exchange_failed")
            else if !truthyOpt tok.access_token then
              FlowOutcome.showCallbackForm (some "no_access_token")
            else
              match user_info with
              | Except.error _ => FlowOutcome.showCallbackForm (some "unknown")
              | Except.ok appliances =>
                if appliances.isEmpty then FlowOutcome.showCallbackForm (some "invalid_token")
                else
                  match appliances.find? (fun a => a.eoj == some "03B7") with
                  | none => FlowOutcome.showCallbackForm (some "no_fridge_found")
                  | some fridge =>
                    if already_configured then FlowOutcome.abortAlreadyConfigured
                    else
                      FlowOutcome.createEntry
                        ("Panasonic Fridge (" ++ fridge.info.productCode ++ ")")
                        { access_token := tok.access_token.getD "",
                          appliance_id := fridge.info.applianceId,
                          product_code := fridge.info.productCode,
                          refresh_token :=
                            if truthyOpt tok.refresh_token then tok.refresh_token else none }

/-! ## Authenticated API client (`api.py`) -/

/-- The body of an HTTP response: the raw text (used in error
messages) and, of the parsed JSON, the one field read by the
coordinator (`current_reduction_amount`; `none` = key absent). -/
structure Body where
  text : String
  current_reduction_amount : Option Int
deriving DecidableEq, Repr

/-- An HTTP response from the resource API. -/
structure Response where
  status : Nat
  body : Body
deriving DecidableEq, Repr

/-- A parsed token-endpoint response reuses `TokenData`. -/
structure Network where
  /-- The `n`-th request issued through `requests.Session.request`
  receives this response. -/
  http : Nat → Response
  /-- The `n`-th POST to `AUTH0_TOKEN_URL` (a refresh) yields this:
  `Except.error msg` models any exception (non-2xx via
  `raise_for_status`, connection failure, bad JSON), with `msg` the
  `str` of the underlying exception. -/
  refreshPost : Nat → Except String TokenData

/-- The mutable token state of `PanasonicAPI`. -/
structure PanasonicAPI where
  access_token : Option String
  refresh_token : Option String
deriving DecidableEq, Repr

/-- Observable effects, for "exactly once" claims. -/
inductive Event where
  /-- A request issued through `self._session.request`. -/
  | httpReq (method url : String) (headers : Option (List (String × String)))
  /-- A POST to the token endpoint (`self._session.post(AUTH0_TOKEN_URL, ...)`). -/
  | tokenRefreshPost
  /-- `hass.config_entries.async_update_entry` with the given new data. -/
  | persistEntry (access_token : Option String) (refresh_token : Option String)
deriving DecidableEq, Repr

/-- A Python exception as raised by the client:
`PanasonicAPIError(msg) from cause`, or `requests.HTTPError` from
`raise_for_status` (carrying the status and body text; the
human-readable reason phrase is not modelled). -/
inductive Exc where
  | panasonic (msg : String) (cause : Option String)
  | httpError (status : Nat) (text : String)
deriving DecidableEq, Repr

/-- `str(err)` of an exception (for `UpdateFailed(f"... {err}")`). -/
def Exc.toMessage : Exc → String
  | Exc.panasonic msg _ => msg
  | Exc.httpError status text => toString status ++ " Error: " ++ text

/-- Result of a client operation: the post-call token state (Python
object state persists across an exception), the value or exception,
the next HTTP and refresh counters, and the event trace. -/
structure CallResult (α : Type) where
  api : PanasonicAPI
  result : Except Exc α
  hc : Nat
  rc : Nat
  trace : List Event
deriving DecidableEq, Repr

/-- The token update of a successful refresh: the access token is
overwritten with the response's `access_token` (possibly `None`), the
refresh token only when the response carries a `refresh_token` key. -/
def applyTokenData (api : PanasonicAPI) (token_data : TokenData) : PanasonicAPI :=
  { access_token := token_data.access_token,
    refresh_token :=
      match token_data.refresh_token with
      | some r => some r
      | none => api.refresh_token }

/-- `PanasonicAPI.refresh_access_token`.  Raises when no refresh token
is held; otherwise POSTs to the token endpoint.  On success the tokens
are updated per `applyTokenData`; on failure no token is mutated and
`PanasonicAPIError(f"Failed to refresh token: {err}") from err` is
raised. -/
def refresh_access_token (api : PanasonicAPI) (net : Network) (hc rc : Nat) :
    CallResult TokenData :=
  match api.refresh_token with
  | none =>
    { api := api, result := Except.error (Exc.panasonic "No refresh token available" none),
      hc := hc, rc := rc, trace := [] }
  | some _ =>
    match net.refreshPost rc with
    | Except.error err =>
      { api := api,
        result := Except.error (Exc.panasonic ("Failed to refresh token: " ++ err) (some err)),
        hc := hc, rc := rc + 1, trace := [Event.tokenRefreshPost] }
    | Except.ok token_data =>
      { api := applyTokenData api token_data,
        result := Except.ok token_data,
        hc := hc, rc := rc + 1, trace := [Event.tokenRefreshPost] }

/-- `f"Bearer {self._access_token}"` (Python renders `None` literally). -/
def bearerValue (api : PanasonicAPI) : String :=
  "Bearer " ++ (match api.access_token with | some t => t | none => "None")

/-- Assign into the `headers` dict (`kwargs["headers"]["Authorization"] = ...`). -/
def setHeader (hs : List (String × String)) (k v : String) : List (String × String) :=
  if hs.any (fun p => p.1 == k) then hs.map (fun p => if p.1 == k then (k, v) else p)
  else hs ++ [(k, v)]

/-- The request-shaping keyword arguments of one call. -/
structure Request where
  method : String
  url : String
  /-- `none` models `kwargs` without a `headers` key. -/
  headers : Option (List (String × String))
deriving DecidableEq, Repr

/-- The headers of the re-issued request: `kwargs["headers"]` with
`Authorization` rewritten to the refreshed bearer value (created fresh
when `kwargs` had no `headers` key). -/
def retryHeaders (req : Request) (api : PanasonicAPI) : List (String × String) :=
  match req.headers with
  | some hs => setHeader hs "Authorization" (bearerValue api)
  | none => [("Authorization", bearerValue api)]

/-- `PanasonicAPI._make_request_with_retry`: issue the request; on a
401/403 status, refresh the token once and re-issue the same request
with the `Authorization` header rewritten to the new bearer value,
returning the retried response; if the refresh raises, raise
`PanasonicAPIError(f"Authentication failed: {status} {text}")` from
the refresh error.  Any other first status is returned as-is. -/
def make_request_with_retry (api : PanasonicAPI) (req : Request) (net : Network)
    (hc rc : Nat) : CallResult Response :=
  let response := net.http hc
  let ev0 : List Event := [Event.httpReq req.method req.url req.headers]
  if response.status == 401 || response.status == 403 then
    match refresh_access_token api net (hc + 1) rc with
    | { api := api2, result := Except.error e, hc := hc2, rc := rc2, trace := tr } =>
      { api := api2,
        result := Except.error
          (Exc.panasonic
            ("Authentication failed: " ++ toString response.status ++ " " ++ response.body.text)
            (some e.toMessage)),
        hc := hc2, rc := rc2, trace := ev0 ++ tr }
    | { api := api2, result := Except.ok _, hc := hc2, rc := rc2, trace := tr } =>
      { api := api2, result := Except.ok (net.http hc2),
        hc := hc2 + 1, rc := rc2,
        trace := ev0 ++ tr ++ [Event.httpReq req.method req.url (some (retryHeaders req api2))] }
  else
    { api := api, result := Except.ok response, hc := hc + 1, rc := rc, trace := ev0 }

/-- `PanasonicAPI._get_headers`.  The `X-Reizo-Date` value
(`datetime.now(Asia/Tokyo)` formatted `%Y-%m-%dT%H:%M:%S`) is the
`date` parameter. -/
def get_headers (api : PanasonicAPI) (date : String) (include_reizo_date : Bool) :
    List (String × String) :=
  [("Content-Type", "application/json; charset=UTF-8"), ("Accept", "application/json")] ++
  (if include_reizo_date then [("X-Reizo-Date", date)] else []) ++
  (match api.access_token with
   | some t => [("Authorization", "Bearer " ++ t)]
   | none => [])

/-- `requests.Response.raise_for_status`: raise `HTTPError` for any
4xx/5xx status. -/
def raise_for_status (r : Response) : Except Exc Response :=
  if 400 ≤ r.status ∧ r.status < 600 then Except.error (Exc.httpError r.status r.body.text)
  else Except.ok r

/-- Shared tail of every endpoint: `raise_for_status` then `.json()`. -/
def finishCall (c : CallResult Response) : CallResult Body :=
  match c.result with
  | Except.error e => { c with result := Except.error e }
  | Except.ok r =>
    match raise_for_status r with
    | Except.error e => { c with result := Except.error e }
    | Except.ok r2 => { c with result := Except.ok r2.body }

/-- `PanasonicAPI.get_user_info` (API-key auth, no `X-Reizo-Date`). -/
def get_user_info (api : PanasonicAPI) (date : String) (net : Network)
    (hc rc : Nat) : CallResult Body :=
  finishCall (make_request_with_retry api
    { method := "GET", url := KAPF_API_BASE_URL ++ "/user/info",
      headers := some (get_headers api date false ++
        [("X-API-Key", API_KEY), ("User-Agent", "KitchenPocketA/5.1.0")]) }
    net hc rc)

/-- `PanasonicAPI.get_device_status` (the `params={"usages": 1}` query
is folded into the URL). -/
def get_device_status (api : PanasonicAPI) (appliance_id : String) (date : String)
    (net : Network) (hc rc : Nat) : CallResult Body :=
  finishCall (make_request_with_retry api
    { method := "GET",
      url := API_BASE_URL ++ "/devices/" ++ url_encode_appliance_id appliance_id ++
             "/status?usages=1",
      headers := some (get_headers api date true) }
    net hc rc)

/-- `PanasonicAPI.get_electricity_reduction`. -/
def get_electricity_reduction (api : PanasonicAPI) (appliance_id : String) (date : String)
    (net : Network) (hc rc : Nat) : CallResult Body :=
  finishCall (make_request_with_retry api
    { method := "GET",
      url := API_BASE_URL ++ "/devices/" ++ url_encode_appliance_id appliance_id ++
             "/reduction",
      headers := some (get_headers api date true) }
    net hc rc)

/-- `PanasonicAPI.get_device_functions`. -/
def get_device_functions (api : PanasonicAPI) (appliance_id : String) (date : String)
    (net : Network) (hc rc : Nat) : CallResult Body :=
  finishCall (make_request_with_retry api
    { method := "GET",
      url := API_BASE_URL ++ "/products/" ++ url_encode_appliance_id appliance_id ++
             "/functions",
      headers := some (get_headers api date true) }
    net hc rc)

/-- `PanasonicAPI.calculate_electricity_usage`: a pure computation,
`(750 - cost_reduction) / YEN_PER_KWH`, no network involved (Python
float division modelled exactly in `ℚ`). -/
def calculate_electricity_usage (cost_reduction : Int) : ℚ :=
  ((750 : ℚ) - (cost_reduction : ℚ)) / YEN_PER_KWH

/-! ## Polling coordinator (`coordinator.py`) -/

/-- `config_entry.data`: the persisted credential record.
`access_token` is an `Option` because the recovery path can store the
dict value `None`. -/
structure EntryData where
  access_token : Option String
  refresh_token : Option String
  appliance_id : String
  product_code : Option String
deriving DecidableEq, Repr

/-- The mapping returned by `_async_update_data` on success. -/
structure Snapshot where
  device_status : Body
  electricity : Body
  electricity_usage_kwh : ℚ
  appliance_id : String
  product_code : String
deriving DecidableEq, Repr

/-- Result of one pair of sequential fetches. -/
structure FetchResult where
  api : PanasonicAPI
  result : Except Exc (Body × Body)
  hc : Nat
  rc : Nat
  trace : List Event
deriving DecidableEq, Repr

/-- The two sequential fetches of one tick (`get_device_status` then
`get_electricity_reduction`), short-circuiting on the first raise —
exactly the body of the coordinator's `try` block, which is also what
the recovery path re-runs. -/
def fetchBoth (api : PanasonicAPI) (appliance_id date : String) (net : Network)
    (hc rc : Nat) : FetchResult :=
  let c1 := get_device_status api appliance_id date net hc rc
  match c1.result with
  | Except.error e =>
    { api := c1.api, result := Except.error e, hc := c1.hc, rc := c1.rc, trace := c1.trace }
  | Except.ok ds =>
    let c2 := get_electricity_reduction c1.api appliance_id date net c1.hc c1.rc
    match c2.result with
    | Except.error e =>
      { api := c2.api, result := Except.error e, hc := c2.hc, rc := c2.rc,
        trace := c1.trace ++ c2.trace }
    | Except.ok ed =>
      { api := c2.api, result := Except.ok (ds, ed), hc := c2.hc, rc := c2.rc,
        trace := c1.trace ++ c2.trace }

/-- Assemble the snapshot: the derived usage defaults the missing
`current_reduction_amount` key to `0`. -/
def mkSnapshot (ds ed : Body) (appliance_id product_code : String) : Snapshot :=
  { device_status := ds, electricity := ed,
    electricity_usage_kwh :=
      calculate_electricity_usage (ed.current_reduction_amount.getD 0),
    appliance_id := appliance_id, product_code := product_code }

/-- Result of one tick: `Except.error` is the `UpdateFailed` message,
alongside the final client state, the (possibly re-persisted) config
entry and the event trace. -/
structure UpdateResult where
  result : Except String Snapshot
  api : PanasonicAPI
  entry : EntryData
  hc : Nat
  rc : Nat
  trace : List Event
deriving DecidableEq, Repr

/-- The config-entry data written by the recovery path:
`new_data["access_token"] = api.access_token`, and
`new_data["refresh_token"]` overwritten only when the client holds a
truthy refresh token. -/
def persistedEntry (entry : EntryData) (api : PanasonicAPI) : EntryData :=
  { entry with
    access_token := api.access_token,
    refresh_token :=
      if truthyOpt api.refresh_token then api.refresh_token else entry.refresh_token }

/-- `PanasonicDataUpdateCoordinator._async_update_data`: fetch both
mappings and build the snapshot.  On a `PanasonicAPIError` whose
message contains `"401"` or `"403"`: refresh directly, and if the
refresh returned a truthy dict, persist the new tokens into the config
entry and retry both fetches, any failure inside this recovery being
logged and the *original* error re-raised as
`UpdateFailed(f"Error communicating with API: {err}")`.  Every other
exception of the initial fetch becomes
`UpdateFailed(f"Unexpected error: {err}")`. -/
def async_update_data (api : PanasonicAPI) (appliance_id product_code : String)
    (entry : EntryData) (date : String) (net : Network) : UpdateResult :=
  let f1 := fetchBoth api appliance_id date net 0 0
  match f1.result with
  | Except.ok (ds, ed) =>
    { result := Except.ok (mkSnapshot ds ed appliance_id product_code),
      api := f1.api, entry := entry, hc := f1.hc, rc := f1.rc, trace := f1.trace }
  | Except.error (Exc.panasonic msg _) =>
    if strContains msg "401" || strContains msg "403" then
      let r := refresh_access_token f1.api net f1.hc f1.rc
      match r.result with
      | Except.error _ =>
        { result := Except.error ("Error communicating with API: " ++ msg),
          api := r.api, entry := entry, hc := r.hc, rc := r.rc,
          trace := f1.trace ++ r.trace }
      | Except.ok token_data =>
        if token_data.truthy then
          let entry2 := persistedEntry entry r.api
          let f2 := fetchBoth r.api appliance_id date net r.hc r.rc
          match f2.result with
          | Except.ok (ds, ed) =>
            { result := Except.ok (mkSnapshot ds ed appliance_id product_code),
              api := f2.api, entry := entry2, hc := f2.hc, rc := f2.rc,
              trace := f1.trace ++ r.trace ++
                [Event.persistEntry entry2.access_token entry2.refresh_token] ++ f2.trace }
          | Except.error _ =>
            { result := Except.error ("Error communicating with API: " ++ msg),
              api := f2.api, entry := entry2, hc := f2.hc, rc := f2.rc,
              trace := f1.trace ++ r.trace ++
                [Event.persistEntry entry2.access_token entry2.refresh_token] ++ f2.trace }
        else
          { result := Except.error ("Error communicating with API: " ++ msg),
            api := r.api, entry := entry, hc := r.hc, rc := r.rc,
            trace := f1.trace ++ r.trace }
    else
      { result := Except.error ("Error communicating with API: " ++ msg),
        api := f1.api, entry := entry, hc := f1.hc, rc := f1.rc, trace := f1.trace }
  | Except.error (Exc.httpError s t) =>
    { result := Except.error ("Unexpected error: " ++ Exc.toMessage (Exc.httpError s t)),
      api := f1.api, entry := entry, hc := f1.hc, rc := f1.rc, trace := f1.trace }

/-! ## A concrete recovery scenario (used to witness the coordinator
theorems): the first request gets a 401 and the client-level refresh
POST fails, so the tick raises `PanasonicAPIError("Authentication
failed: 401 …")`; the orchestrator-level refresh then succeeds and the
retried fetches return 200. -/

/-- The network of the recovery scenario. -/
def recoveryNet : Network :=
  { http := fun n =>
      if n == 0 then ⟨401, ⟨"unauthorized", none⟩⟩
      else if n == 1 then ⟨200, ⟨"status-ok", none⟩⟩
      else ⟨200, ⟨"reduction-ok", some 100⟩⟩,
    refreshPost := fun n =>
      if n == 0 then Except.error "boom"
      else Except.ok ⟨some "new", some "newref", false⟩ }

/-- The client state of the recovery scenario. -/
def recoveryApi : PanasonicAPI := ⟨some "old", some "ref"⟩

/-- The config entry of the recovery scenario. -/
def recoveryEntry : EntryData := ⟨some "old", some "ref", "aid", some "pc"⟩

/-! ## Supporting lemmas -/

/-- Every Unicode scalar value is below `2 ^ 21`-ish bound `1114112`. -/
theorem char_toNat_lt (c : Char) : c.toNat < 1114112 := by
  rcases c.valid with h | ⟨_, h2⟩
  · exact Nat.lt_trans h (by norm_num)
  · exact h2

/-- `Char.ofNat` round-trips on valid scalar values below the
surrogate range. -/
theorem toNat_charOfNat {n : Nat} (h : n < 55296) : (Char.ofNat n).toNat = n := by
  have hv : Nat.isValidChar n := Or.inl h
  simp only [Char.ofNat, dif_pos hv, Char.ofNatAux, Char.toNat]
  rfl

/-- UTF-8 encoding produces bytes. -/
theorem utf8EncodeChar_lt_256 (c : Nat) (hc : c < 1114112) :
    ∀ b ∈ utf8EncodeChar c, b < 256 := by
  unfold utf8EncodeChar
  split_ifs with h1 h2 h3 <;> intro b hb <;> simp at hb <;> omega

/-- All bytes of a UTF-8 encoded string are below 256. -/
theorem strToBytes_lt_256 (s : String) : ∀ b ∈ strToBytes s, b < 256 := by
  intro b hb
  simp only [strToBytes, List.mem_flatten, List.mem_map] at hb
  obtain ⟨l, ⟨c, _, rfl⟩, hbl⟩ := hb
  exact utf8EncodeChar_lt_256 c.toNat (char_toNat_lt c) b hbl

/-- Always-safe bytes are ASCII and are not `%`, `+` or `=`. -/
theorem isAlwaysSafeByte_facts {b : Nat} (h : isAlwaysSafeByte b = true) :
    b ≠ 37 ∧ b ≠ 43 ∧ b ≠ 61 ∧ b < 127 := by
  simp only [isAlwaysSafeByte, Bool.or_eq_true, Bool.and_eq_true, decide_eq_true_eq,
    beq_iff_eq] at h
  omega

/-- The uppercase hex digits decode back to their value. -/
theorem hexVal_hexDigit : ∀ n, n < 16 → hexVal (hexDigit n) = some n := by decide

/-- No hex digit is `%`, `+` or `=`. -/
theorem hexDigit_ne : ∀ n, n < 16 →
    hexDigit n ≠ '%' ∧ hexDigit n ≠ '+' ∧ hexDigit n ≠ '=' := by decide

/-- Decoding a non-`%` head takes one character. -/
theorem percentDecodeBytes_cons (c : Char) (cs : List Char) (h : ¬ c = '%') :
    percentDecodeBytes (c :: cs) = c.toNat :: percentDecodeBytes cs := by
  rw [percentDecodeBytes.eq_def]
  split
  · rename_i heq
    exact absurd heq (by simp)
  · rename_i c1 c2 rest heq
    rw [List.cons.injEq] at heq
    exact absurd heq.1 h
  · rename_i c0 rest0 hno heq
    rw [List.cons.injEq] at heq
    obtain ⟨h1, h2⟩ := heq
    subst h1
    subst h2
    rfl

/-- Decoding inverts encoding with an empty `safe` set. -/
theorem percentDecode_percentEncode (bs : List Nat) (h : ∀ b ∈ bs, b < 256) :
    percentDecodeBytes (percentEncodeBytes [] bs) = bs := by
  induction bs with
  | nil => rfl
  | cons b rest ih =>
    have hb : b < 256 := h b (by simp)
    have hrest : ∀ x ∈ rest, x < 256 := fun x hx => h x (by simp [hx])
    rw [percentEncodeBytes]
    by_cases hs : isSafeByte [] b = true
    · have hsafe : isAlwaysSafeByte b = true := by
        simpa [isSafeByte] using hs
      have hfacts := isAlwaysSafeByte_facts hsafe
      have hlt : b < 55296 := by omega
      have hne : ¬ Char.ofNat b = '%' := by
        intro he
        have hx : (Char.ofNat b).toNat = ('%' : Char).toNat := by rw [he]
        rw [toNat_charOfNat hlt, show ('%' : Char).toNat = 37 from rfl] at hx
        omega
      rw [percentEncodeByte, if_pos hs]
      simp only [List.cons_append, List.nil_append]
      rw [percentDecodeBytes_cons _ _ hne, toNat_charOfNat hlt, ih hrest]
    · rw [percentEncodeByte, if_neg hs]
      simp only [List.cons_append, List.nil_append]
      rw [percentDecodeBytes]
      have h1 : hexVal (hexDigit (b / 16)) = some (b / 16) :=
        hexVal_hexDigit _ (by omega)
      have h2 : hexVal (hexDigit (b % 16)) = some (b % 16) :=
        hexVal_hexDigit _ (by omega)
      rw [h1, h2]
      rw [ih hrest]
      have hbeq : 16 * (b / 16) + b % 16 = b := by omega
      show (16 * (b / 16) + b % 16) :: rest = b :: rest
      rw [hbeq]

/-- Every character of an encoded byte sequence is a safe character,
a `%`, or a hex digit — in particular never `+` or `=`. -/
theorem percentEncode_no_plus_eq (bs : List Nat) (h : ∀ b ∈ bs, b < 256) :
    ('+' ∉ percentEncodeBytes [] bs) ∧ ('=' ∉ percentEncodeBytes [] bs) := by
  induction bs with
  | nil => simp [percentEncodeBytes]
  | cons b rest ih =>
    have hb : b < 256 := h b (by simp)
    have hrest : ∀ x ∈ rest, x < 256 := fun x hx => h x (by simp [hx])
    obtain ⟨ih1, ih2⟩ := ih hrest
    rw [percentEncodeBytes, percentEncodeByte]
    by_cases hs : isSafeByte [] b = true
    · have hsafe : isAlwaysSafeByte b = true := by simpa [isSafeByte] using hs
      have hfacts := isAlwaysSafeByte_facts hsafe
      have hlt : b < 55296 := by omega
      rw [if_pos hs]
      constructor <;> intro hmem <;> rcases List.mem_append.1 hmem with hm | hm
      · have hx : (Char.ofNat b).toNat = ('+' : Char).toNat := by
          simp only [List.mem_singleton] at hm; rw [hm]
        rw [toNat_charOfNat hlt, show ('+' : Char).toNat = 43 from rfl] at hx
        omega
      · exact ih1 hm
      · have hx : (Char.ofNat b).toNat = ('=' : Char).toNat := by
          simp only [List.mem_singleton] at hm; rw [hm]
        rw [toNat_charOfNat hlt, show ('=' : Char).toNat = 61 from rfl] at hx
        omega
      · exact ih2 hm
    · rw [if_neg hs]
      have hd1 := hexDigit_ne (b / 16) (by omega)
      have hd2 := hexDigit_ne (b % 16) (by omega)
      constructor <;> intro hmem <;> simp only [List.cons_append, List.mem_cons] at hmem
      · rcases hmem with hm | hm | hm | hm
        · exact absurd hm.symm (by decide)
        · exact hd1.2.1 hm.symm
        · exact hd2.2.1 hm.symm
        · exact ih1 hm
      · rcases hmem with hm | hm | hm | hm
        · exact absurd hm.symm (by decide)
        · exact hd1.2.2 hm.symm
        · exact hd2.2.2 hm.symm
        · exact ih2 hm

/-! ## Claim theorems -/

/-- C8: for every appliance identifier string (represented by its
UTF-8 byte sequence `strToBytes s`), the URL segment encoder
`_url_encode_appliance_id` percent-encodes with no characters treated
as safe, so percent-decoding the encoded segment reconstructs the
identifier's bytes exactly, and neither `+` nor `=` appears unescaped
in the encoded segment; concretely, `"a+b=c"` encodes to
`"a%2Bb%3Dc"`. -/
theorem C8_url_encode_appliance_id_round_trip (s : String) :
    percentDecodeBytes (url_encode_appliance_id s).data = strToBytes s ∧
    '+' ∉ (url_encode_appliance_id s).data ∧
    '=' ∉ (url_encode_appliance_id s).data ∧
    url_encode_appliance_id "a+b=c" = "a%2Bb%3Dc" := by
  have hb := strToBytes_lt_256 s
  have h1 := percentDecode_percentEncode (strToBytes s) hb
  have h2 := percentEncode_no_plus_eq (strToBytes s) hb
  exact ⟨h1, h2.1, h2.2, by decide⟩

/-- C6: `calculate_electricity_usage` is the pure computation
`(750 - cost_reduction) / 31` (no `Network` argument appears in its
type): it returns `0` for reduction `750`, a value within `0.01` of
`24.19` for reduction `0`, and a negative value for every reduction
exceeding `750`. -/
theorem C6_calculate_electricity_usage_formula :
    (∀ r : Int, calculate_electricity_usage r = ((750 : ℚ) - (r : ℚ)) / 31) ∧
    calculate_electricity_usage 750 = 0 ∧
    |calculate_electricity_usage 0 - 24.19| < 1 / 100 ∧
    (∀ r : Int, 750 < r → calculate_electricity_usage r < 0) := by
  refine ⟨fun r => rfl, ?_, ?_, ?_⟩
  · norm_num [calculate_electricity_usage, YEN_PER_KWH]
  · rw [abs_sub_lt_iff]
    constructor <;> norm_num [calculate_electricity_usage, YEN_PER_KWH]
  · intro r hr
    have hc : (750 : ℚ) < (r : ℚ) := by exact_mod_cast hr
    unfold calculate_electricity_usage YEN_PER_KWH
    apply div_neg_of_neg_of_pos
    · linarith
    · norm_num

/-- Witness for C6: reduction `1000` exceeds the baseline and yields a
negative usage. -/
theorem C6_calculate_electricity_usage_formula_witness :
    (750 : Int) < 1000 ∧ calculate_electricity_usage 1000 < 0 :=
  ⟨by norm_num, C6_calculate_electricity_usage_formula.2.2.2 1000 (by norm_num)⟩

/-- C5 counterexample: on the malformed URL `"http://["` — where
`urlsplit` raises `ValueError("Invalid IPv6 URL")`, so the extractor's
`except` branch fires — the extractor returns `none`, the very same
result it returns for the well-formed URL `"https://cb?state=x"` that
merely lacks a `code` parameter.  The claimed distinct parse-failure
result does not exist: the function's codomain is `Option String` and
both cases collapse to `none`. -/
theorem C5_parse_failure_not_distinct :
    urlsplit_query "http://[" = Except.error () ∧
    extract_code_from_callback "http://[" = none ∧
    extract_code_from_callback "https://cb?state=x" = none :=
  ⟨rfl, by decide, by decide⟩

/-- C5 amended: the extractor returns the first `code` value when one
is present, and `none` otherwise — both when the URL parses but has no
`code` parameter and when the URL is malformed (the `except` branch,
which does not raise) — with no distinction between the two `none`
outcomes. -/
theorem C5_extract_code_amended :
    (∀ url, urlsplit_query url = Except.error () →
      extract_code_from_callback url = none) ∧
    extract_code_from_callback "https://cb?code=abc&state=x" = some "abc" ∧
    extract_code_from_callback "https://cb?state=x" = none ∧
    extract_code_from_callback "not a url###" = none ∧
    extract_code_from_callback "http://[" = none := by
  refine ⟨?_, by decide, by decide, by decide, by decide⟩
  intro url h
  unfold extract_code_from_callback
  rw [h]

/-- Witness for the amended C5: the malformed URL `"http://["` makes
`urlsplit` raise, and the extractor returns `none` on it. -/
theorem C5_extract_code_amended_witness :
    urlsplit_query "http://[" = Except.error () ∧
    extract_code_from_callback "http://[" = none :=
  ⟨rfl, C5_extract_code_amended.1 "http://[" rfl⟩

/-- C7: given a submitted callback URL from which a non-empty code is
extracted, a token exchange returning a response whose access token is
a non-empty `atok`, and a user-info appliance list whose first
appliance with device-class code `eoj = "03B7"` is `a`, the callback
step creates an entry titled after `a`'s product code whose data is
exactly the exchanged access token, the returned refresh token (kept
only when truthy), and `a`'s `info.applianceId` / `info.productCode`. -/
theorem C7_setup_selects_first_fridge
    (code_verifier input code atok : String)
    (exchange : String → String → Option TokenData)
    (user_info_list : List Appliance) (tok : TokenData) (a : Appliance)
    (hstrip : ¬ pyStrip input = "")
    (hcode : extract_code_from_callback (pyStrip input) = some code)
    (hcode_ne : ¬ code = "")
    (hex : exchange code code_verifier = some tok)
    (hat : tok.access_token = some atok) (hat_ne : ¬ atok = "")
    (hfind : user_info_list.find? (fun x => x.eoj == some "03B7") = some a) :
    async_step_callback code_verifier (some input) exchange
        (Except.ok user_info_list) false =
      FlowOutcome.createEntry ("Panasonic Fridge (" ++ a.info.productCode ++ ")")
        { access_token := atok,
          appliance_id := a.info.applianceId,
          product_code := a.info.productCode,
          refresh_token :=
            if truthyOpt tok.refresh_token then tok.refresh_token else none } := by
  have hnonempty : user_info_list.isEmpty = false := by
    cases user_info_list with
    | nil => simp [List.find?] at hfind
    | cons x xs => rfl
  have htruthy : tok.truthy = true := by
    simp [TokenData.truthy, hat]
  have hatok : truthyOpt tok.access_token = true := by
    simp [truthyOpt, hat, hat_ne]
  simp [async_step_callback, hcode, hex, hfind, hat, htruthy, hatok, hnonempty,
    hstrip, hcode_ne, truthyOpt, hat_ne]

/-- Witness for C7: a concrete flow in which the second appliance is
the first refrigerator. -/
theorem C7_setup_selects_first_fridge_witness :
    (¬ pyStrip "https://cb?code=abc" = "") ∧
    extract_code_from_callback (pyStrip "https://cb?code=abc") = some "abc" ∧
    async_step_callback "ver" (some "https://cb?code=abc")
        (fun _ _ => some ⟨some "A1", some "R1", false⟩)
        (Except.ok
          [⟨some "0130", ⟨"aircon1", "CS-X403"⟩⟩,
           ⟨some "03B7", ⟨"fridge+1=", "NR-F656"⟩⟩])
        false =
      FlowOutcome.createEntry "Panasonic Fridge (NR-F656)"
        { access_token := "A1", appliance_id := "fridge+1=",
          product_code := "NR-F656", refresh_token := some "R1" } := by
  refine ⟨by decide, by decide, ?_⟩
  have h := C7_setup_selects_first_fridge "ver" "https://cb?code=abc" "abc" "A1"
    (fun _ _ => some ⟨some "A1", some "R1", false⟩)
    [⟨some "0130", ⟨"aircon1", "CS-X403"⟩⟩, ⟨some "03B7", ⟨"fridge+1=", "NR-F656"⟩⟩]
    ⟨some "A1", some "R1", false⟩
    ⟨some "03B7", ⟨"fridge+1=", "NR-F656"⟩⟩
    (by decide) (by decide) (by decide) rfl rfl (by decide) (by decide)
  simpa using h

/-- C3: while a refresh token is held, no client operation removes it.
A failed refresh POST leaves both tokens unchanged (the whole returned
state equals the input state) and surfaces the wrapped original error;
a successful refresh whose response omits `refresh_token` keeps the
previous one; a successful refresh carrying one replaces it; and
`_make_request_with_retry` always ends with a held refresh token. -/
theorem C3_refresh_token_never_lost (api : PanasonicAPI) (net : Network) (hc rc : Nat)
    (hheld : api.refresh_token.isSome = true) :
    (∀ e, net.refreshPost rc = Except.error e →
      refresh_access_token api net hc rc =
        { api := api,
          result := Except.error
            (Exc.panasonic ("Failed to refresh token: " ++ e) (some e)),
          hc := hc, rc := rc + 1, trace := [Event.tokenRefreshPost] }) ∧
    (∀ td, net.refreshPost rc = Except.ok td → td.refresh_token = none →
      (refresh_access_token api net hc rc).api.refresh_token = api.refresh_token) ∧
    (∀ td r, net.refreshPost rc = Except.ok td → td.refresh_token = some r →
      (refresh_access_token api net hc rc).api.refresh_token = some r) ∧
    (∀ req, ((make_request_with_retry api req net hc rc).api.refresh_token).isSome = true) ∧
    ((refresh_access_token api net hc rc).api.refresh_token).isSome = true := by
  obtain ⟨rt, hrt⟩ := Option.isSome_iff_exists.mp hheld
  have hsome : ∀ td : TokenData,
      ((applyTokenData api td).refresh_token).isSome = true := by
    intro td
    rcases htd : td.refresh_token with _ | r
    · simpa [applyTokenData, htd] using hheld
    · simp [applyTokenData, htd]
  refine ⟨?_, ?_, ?_, ?_, ?_⟩
  · intro e he
    simp [refresh_access_token, hrt, he]
  · intro td htd hnone
    simp [refresh_access_token, applyTokenData, hrt, htd, hnone]
  · intro td r htd hsomer
    simp [refresh_access_token, applyTokenData, hrt, htd, hsomer]
  · intro req
    unfold make_request_with_retry
    by_cases hst : ((net.http hc).status == 401 || (net.http hc).status == 403) = true
    · rw [if_pos hst]
      rcases hre : net.refreshPost rc with e | td
      · simp [refresh_access_token, hrt, hre, hheld]
      · simp [refresh_access_token, hrt, hre]
        exact hsome td
    · rw [if_neg hst]
      exact hheld
  · rcases hre : net.refreshPost rc with e | td
    · simp [refresh_access_token, hrt, hre, hheld]
    · simp [refresh_access_token, hrt, hre]
      exact hsome td

/-- Witness for C3: a concrete failed refresh leaves the concrete
state untouched and surfaces the wrapped error. -/
theorem C3_refresh_token_never_lost_witness :
    ((⟨some "tokA", some "tokR"⟩ : PanasonicAPI).refresh_token).isSome = true ∧
    refresh_access_token ⟨some "tokA", some "tokR"⟩
      { http := fun _ => ⟨200, ⟨"", none⟩⟩,
        refreshPost := fun _ => Except.error "boom" } 0 0 =
      { api := ⟨some "tokA", some "tokR"⟩,
        result := Except.error
          (Exc.panasonic "Failed to refresh token: boom" (some "boom")),
        hc := 0, rc := 1, trace := [Event.tokenRefreshPost] } :=
  ⟨rfl,
   (C3_refresh_token_never_lost ⟨some "tokA", some "tokR"⟩
     { http := fun _ => ⟨200, ⟨"", none⟩⟩,
       refreshPost := fun _ => Except.error "boom" } 0 0 rfl).1 "boom" rfl⟩

/-- C1: the auth-retry policy of `_make_request_with_retry`, shared by
all four API calls (`get_user_info`, `get_device_status`,
`get_electricity_reduction`, `get_device_functions`).  When the first
response has status 401 or 403: (a) if the refresh succeeds, the trace
is exactly one refresh POST and one re-issued identical request with
the rewritten bearer header, and the retried response is returned;
(b)/(b') if the refresh raises (failed POST, or no refresh token
held), a `PanasonicAPIError` wrapping the original status and the
refresh error is raised, with no second request; (c) a second 401/403
after the retry is surfaced as a hard `HTTPError` by the endpoints,
with the counters showing exactly one refresh and exactly two
requests, never a loop; (d) on a 200 retry each of the four endpoints
returns the retried response's body. -/
theorem C1_auth_retry_policy (api : PanasonicAPI) (req : Request) (net : Network)
    (hc rc : Nat) (appliance_id date : String)
    (hstatus : (net.http hc).status = 401 ∨ (net.http hc).status = 403) :
    (∀ rt td, api.refresh_token = some rt → net.refreshPost rc = Except.ok td →
      make_request_with_retry api req net hc rc =
        { api := applyTokenData api td,
          result := Except.ok (net.http (hc + 1)),
          hc := hc + 2, rc := rc + 1,
          trace := [Event.httpReq req.method req.url req.headers,
                    Event.tokenRefreshPost,
                    Event.httpReq req.method req.url
                      (some (retryHeaders req (applyTokenData api td)))] }) ∧
    (∀ rt e, api.refresh_token = some rt → net.refreshPost rc = Except.error e →
      make_request_with_retry api req net hc rc =
        { api := api,
          result := Except.error (Exc.panasonic
            ("Authentication failed: " ++ toString (net.http hc).status ++ " " ++
              (net.http hc).body.text)
            (some ("Failed to refresh token: " ++ e))),
          hc := hc + 1, rc := rc + 1,
          trace := [Event.httpReq req.method req.url req.headers,
                    Event.tokenRefreshPost] }) ∧
    (api.refresh_token = none →
      make_request_with_retry api req net hc rc =
        { api := api,
          result := Except.error (Exc.panasonic
            ("Authentication failed: " ++ toString (net.http hc).status ++ " " ++
              (net.http hc).body.text)
            (some "No refresh token available")),
          hc := hc + 1, rc := rc,
          trace := [Event.httpReq req.method req.url req.headers] }) ∧
    (∀ rt td, api.refresh_token = some rt → net.refreshPost rc = Except.ok td →
      ((net.http (hc + 1)).status = 401 ∨ (net.http (hc + 1)).status = 403) →
      (get_device_status api appliance_id date net hc rc).result =
          Except.error (Exc.httpError (net.http (hc + 1)).status
            (net.http (hc + 1)).body.text) ∧
        (get_device_status api appliance_id date net hc rc).rc = rc + 1 ∧
        (get_device_status api appliance_id date net hc rc).hc = hc + 2) ∧
    (∀ rt td, api.refresh_token = some rt → net.refreshPost rc = Except.ok td →
      (net.http (hc + 1)).status = 200 →
      (get_user_info api date net hc rc).result =
          Except.ok (net.http (hc + 1)).body ∧
        (get_device_status api appliance_id date net hc rc).result =
          Except.ok (net.http (hc + 1)).body ∧
        (get_electricity_reduction api appliance_id date net hc rc).result =
          Except.ok (net.http (hc + 1)).body ∧
        (get_device_functions api appliance_id date net hc rc).result =
          Except.ok (net.http (hc + 1)).body ∧
        (get_device_status api appliance_id date net hc rc).rc = rc + 1 ∧
        (get_device_status api appliance_id date net hc rc).hc = hc + 2) := by
  have hst : ((net.http hc).status == 401 || (net.http hc).status == 403) = true := by
    rcases hstatus with h | h <;> simp [h]
  have hmk : ∀ (r : Request) (rt : String) (td : TokenData),
      api.refresh_token = some rt → net.refreshPost rc = Except.ok td →
      make_request_with_retry api r net hc rc =
        { api := applyTokenData api td,
          result := Except.ok (net.http (hc + 1)),
          hc := hc + 2, rc := rc + 1,
          trace := [Event.httpReq r.method r.url r.headers,
                    Event.tokenRefreshPost,
                    Event.httpReq r.method r.url
                      (some (retryHeaders r (applyTokenData api td)))] } := by
    intro r rt td hrt hre
    unfold make_request_with_retry
    rw [if_pos hst]
    simp [refresh_access_token, hrt, hre]
  refine ⟨fun rt td h1 h2 => hmk req rt td h1 h2, ?_, ?_, ?_, ?_⟩
  · intro rt e hrt hre
    unfold make_request_with_retry
    rw [if_pos hst]
    simp [refresh_access_token, hrt, hre, Exc.toMessage]
  · intro hrt
    unfold make_request_with_retry
    rw [if_pos hst]
    simp [refresh_access_token, hrt, Exc.toMessage]
  · intro rt td hrt hre h2
    have h400 : 400 ≤ (net.http (hc + 1)).status ∧ (net.http (hc + 1)).status < 600 := by
      rcases h2 with h | h <;> rw [h] <;> omega
    refine ⟨?_, ?_, ?_⟩ <;>
    · unfold get_device_status finishCall
      rw [hmk _ rt td hrt hre]
      simp [raise_for_status, h400]
  · intro rt td hrt hre h200
    have h400 : ¬ (400 ≤ (net.http (hc + 1)).status ∧ (net.http (hc + 1)).status < 600) := by
      rw [h200]; omega
    refine ⟨?_, ?_, ?_, ?_, ?_, ?_⟩
    · unfold get_user_info finishCall
      rw [hmk _ rt td hrt hre]
      simp [raise_for_status, h400]
    · unfold get_device_status finishCall
      rw [hmk _ rt td hrt hre]
      simp [raise_for_status, h400]
    · unfold get_electricity_reduction finishCall
      rw [hmk _ rt td hrt hre]
      simp [raise_for_status, h400]
    · unfold get_device_functions finishCall
      rw [hmk _ rt td hrt hre]
      simp [raise_for_status, h400]
    · unfold get_device_status finishCall
      rw [hmk _ rt td hrt hre]
      simp [raise_for_status, h400]
    · unfold get_device_status finishCall
      rw [hmk _ rt td hrt hre]
      simp [raise_for_status, h400]

/-- Witness for C1: a concrete 401 answered by a successful refresh —
one refresh POST, one re-issued request with the new bearer header,
and the retried 200 response returned. -/
theorem C1_auth_retry_policy_witness :
    (({ http := fun n => if n == 0 then ⟨401, ⟨"unauthorized", none⟩⟩
                 else ⟨200, ⟨"ok", some 120⟩⟩,
        refreshPost := fun _ => Except.ok ⟨some "new", some "newref", false⟩ } :
          Network).http 0).status = 401 ∧
    make_request_with_retry ⟨some "old", some "ref"⟩
        ⟨"GET", "https://x", some [("Authorization", "Bearer old")]⟩
        { http := fun n => if n == 0 then ⟨401, ⟨"unauthorized", none⟩⟩
                  else ⟨200, ⟨"ok", some 120⟩⟩,
          refreshPost := fun _ => Except.ok ⟨some "new", some "newref", false⟩ } 0 0 =
      { api := ⟨some "new", some "newref"⟩,
        result := Except.ok ⟨200, ⟨"ok", some 120⟩⟩,
        hc := 2, rc := 1,
        trace := [Event.httpReq "GET" "https://x"
                    (some [("Authorization", "Bearer old")]),
                  Event.tokenRefreshPost,
                  Event.httpReq "GET" "https://x"
                    (some [("Authorization", "Bearer new")])] } := by
  refine ⟨rfl, ?_⟩
  have h := (C1_auth_retry_policy ⟨some "old", some "ref"⟩
    ⟨"GET", "https://x", some [("Authorization", "Bearer old")]⟩
    { http := fun n => if n == 0 then ⟨401, ⟨"unauthorized", none⟩⟩
              else ⟨200, ⟨"ok", some 120⟩⟩,
      refreshPost := fun _ => Except.ok ⟨some "new", some "newref", false⟩ } 0 0
    "aid" "d" (Or.inl rfl)).1 "ref" ⟨some "new", some "newref", false⟩ rfl rfl
  rw [h]
  decide

/-- C2: the orchestrator's per-tick failure handling.  Whenever the
initial pair of fetches raises a `PanasonicAPIError` whose message
contains `"401"` or `"403"`: one direct refresh is attempted; if it
fails, a single generic `UpdateFailed` ("Error communicating with API:
…", carrying the original message) is raised with nothing persisted;
if it succeeds with a truthy response, the new access/refresh tokens
are persisted to the config entry (exactly one `persistEntry` event)
and both fetches are retried exactly once, the snapshot being built
from the retried fetches' data — while any failure of the retried
fetches again raises the single generic `UpdateFailed`.  Every other
exception of the initial fetch also raises a single `UpdateFailed`
("Unexpected error" for a non-`PanasonicAPIError`). -/
theorem C2_orchestrator_recovery (api : PanasonicAPI)
    (appliance_id product_code : String) (entry : EntryData) (date : String)
    (net : Network) (f1 : FetchResult)
    (hf1 : fetchBoth api appliance_id date net 0 0 = f1) :
    (∀ msg cause, f1.result = Except.error (Exc.panasonic msg cause) →
      (strContains msg "401" || strContains msg "403") = true →
      ∀ r, refresh_access_token f1.api net f1.hc f1.rc = r →
      ((∀ e, r.result = Except.error e →
        async_update_data api appliance_id product_code entry date net =
          { result := Except.error ("Error communicating with API: " ++ msg),
            api := r.api, entry := entry, hc := r.hc, rc := r.rc,
            trace := f1.trace ++ r.trace }) ∧
       (∀ td, r.result = Except.ok td → td.truthy = true →
        ∀ f2, fetchBoth r.api appliance_id date net r.hc r.rc = f2 →
        ((∀ ds ed, f2.result = Except.ok (ds, ed) →
          async_update_data api appliance_id product_code entry date net =
            { result := Except.ok (mkSnapshot ds ed appliance_id product_code),
              api := f2.api, entry := persistedEntry entry r.api,
              hc := f2.hc, rc := f2.rc,
              trace := f1.trace ++ r.trace ++
                [Event.persistEntry (persistedEntry entry r.api).access_token
                  (persistedEntry entry r.api).refresh_token] ++ f2.trace }) ∧
         (∀ e2, f2.result = Except.error e2 →
          async_update_data api appliance_id product_code entry date net =
            { result := Except.error ("Error communicating with API: " ++ msg),
              api := f2.api, entry := persistedEntry entry r.api,
              hc := f2.hc, rc := f2.rc,
              trace := f1.trace ++ r.trace ++
                [Event.persistEntry (persistedEntry entry r.api).access_token
                  (persistedEntry entry r.api).refresh_token] ++ f2.trace }))) ∧
       (∀ td, r.result = Except.ok td → td.truthy = false →
        async_update_data api appliance_id product_code entry date net =
          { result := Except.error ("Error communicating with API: " ++ msg),
            api := r.api, entry := entry, hc := r.hc, rc := r.rc,
            trace := f1.trace ++ r.trace }))) ∧
    (∀ msg cause, f1.result = Except.error (Exc.panasonic msg cause) →
      (strContains msg "401" || strContains msg "403") = false →
      async_update_data api appliance_id product_code entry date net =
        { result := Except.error ("Error communicating with API: " ++ msg),
          api := f1.api, entry := entry, hc := f1.hc, rc := f1.rc,
          trace := f1.trace }) ∧
    (∀ s t, f1.result = Except.error (Exc.httpError s t) →
      async_update_data api appliance_id product_code entry date net =
        { result := Except.error ("Unexpected error: " ++
            Exc.toMessage (Exc.httpError s t)),
          api := f1.api, entry := entry, hc := f1.hc, rc := f1.rc,
          trace := f1.trace }) := by
  refine ⟨?_, ?_, ?_⟩
  · intro msg cause hfail hauth r hr
    refine ⟨?_, ?_, ?_⟩
    · intro e he
      unfold async_update_data
      simp [hf1, hfail, hauth, hr, he]
    · intro td htd htruthy f2 hf2
      constructor
      · intro ds ed hok
        unfold async_update_data
        simp [hf1, hfail, hauth, hr, htd, htruthy, hf2, hok]
      · intro e2 he2
        unfold async_update_data
        simp [hf1, hfail, hauth, hr, htd, htruthy, hf2, he2]
    · intro td htd hfalsy
      unfold async_update_data
      simp [hf1, hfail, hauth, hr, htd, hfalsy]
  · intro msg cause hfail hnoauth
    unfold async_update_data
    simp [hf1, hfail, hnoauth]
  · intro s t hfail
    unfold async_update_data
    simp [hf1, hfail]

/-- Witness for C2: in the concrete recovery scenario the tick returns
the snapshot built from the retried fetches, persists the refreshed
tokens exactly once, and the trace shows the failed first request, the
failed client-level refresh POST, the one successful orchestrator
refresh POST, the one persistence, and the two retried requests. -/
theorem C2_orchestrator_recovery_witness :
    (fetchBoth recoveryApi "aid" "d" recoveryNet 0 0).result =
      Except.error (Exc.panasonic "Authentication failed: 401 unauthorized"
        (some "Failed to refresh token: boom")) ∧
    (async_update_data recoveryApi "aid" "pc" recoveryEntry "d" recoveryNet).result =
      Except.ok
        { device_status := ⟨"status-ok", none⟩,
          electricity := ⟨"reduction-ok", some 100⟩,
          electricity_usage_kwh := calculate_electricity_usage 100,
          appliance_id := "aid", product_code := "pc" } ∧
    (async_update_data recoveryApi "aid" "pc" recoveryEntry "d" recoveryNet).entry =
      ⟨some "new", some "newref", "aid", some "pc"⟩ ∧
    (async_update_data recoveryApi "aid" "pc" recoveryEntry "d" recoveryNet).trace =
      [Event.httpReq "GET"
         "https://app.ref.apws.panasonic.com/reizo/v3/devices/aid/status?usages=1"
         (some [("Content-Type", "application/json; charset=UTF-8"),
                ("Accept", "application/json"), ("X-Reizo-Date", "d"),
                ("Authorization", "Bearer old")]),
       Event.tokenRefreshPost,
       Event.tokenRefreshPost,
       Event.persistEntry (some "new") (some "newref"),
       Event.httpReq "GET"
         "https://app.ref.apws.panasonic.com/reizo/v3/devices/aid/status?usages=1"
         (some [("Content-Type", "application/json; charset=UTF-8"),
                ("Accept", "application/json"), ("X-Reizo-Date", "d"),
                ("Authorization", "Bearer new")]),
       Event.httpReq "GET"
         "https://app.ref.apws.panasonic.com/reizo/v3/devices/aid/reduction"
         (some [("Content-Type", "application/json; charset=UTF-8"),
                ("Accept", "application/json"), ("X-Reizo-Date", "d"),
                ("Authorization", "Bearer new")])] := by
  have h := ((C2_orchestrator_recovery recoveryApi "aid" "pc" recoveryEntry "d"
    recoveryNet _ rfl).1 "Authentication failed: 401 unauthorized"
    (some "Failed to refresh token: boom") (by decide) (by decide) _ rfl).2.1
    ⟨some "new", some "newref", false⟩ (by decide) (by decide) _ rfl
  have h2 := h.1 ⟨"status-ok", none⟩ ⟨"reduction-ok", some 100⟩ (by decide)
  refine ⟨by decide, ?_, ?_, ?_⟩
  · rw [h2]
    rfl
  · rw [h2]
    decide
  · rw [h2]
    decide

/-- C10: whenever the electricity-reduction response body lacks the
`current_reduction_amount` key, the tick still returns a complete
snapshot whose derived usage is computed with reduction `0` — that is,
`calculate_electricity_usage 0 = 750 / 31` kWh — both on the normal
path and on the recovery-path retry. -/
theorem C10_missing_reduction_defaults_to_zero (api : PanasonicAPI)
    (appliance_id product_code : String) (entry : EntryData) (date : String)
    (net : Network) :
    calculate_electricity_usage 0 = (750 : ℚ) / 31 ∧
    (∀ f1 ds ed, fetchBoth api appliance_id date net 0 0 = f1 →
      f1.result = Except.ok (ds, ed) → ed.current_reduction_amount = none →
      async_update_data api appliance_id product_code entry date net =
        { result := Except.ok
            { device_status := ds, electricity := ed,
              electricity_usage_kwh := calculate_electricity_usage 0,
              appliance_id := appliance_id, product_code := product_code },
          api := f1.api, entry := entry, hc := f1.hc, rc := f1.rc,
          trace := f1.trace }) ∧
    (∀ f1 msg cause r td f2 ds ed,
      fetchBoth api appliance_id date net 0 0 = f1 →
      f1.result = Except.error (Exc.panasonic msg cause) →
      (strContains msg "401" || strContains msg "403") = true →
      refresh_access_token f1.api net f1.hc f1.rc = r →
      r.result = Except.ok td → td.truthy = true →
      fetchBoth r.api appliance_id date net r.hc r.rc = f2 →
      f2.result = Except.ok (ds, ed) → ed.current_reduction_amount = none →
      (async_update_data api appliance_id product_code entry date net).result =
        Except.ok
          { device_status := ds, electricity := ed,
            electricity_usage_kwh := calculate_electricity_usage 0,
            appliance_id := appliance_id, product_code := product_code }) := by
  refine ⟨by norm_num [calculate_electricity_usage, YEN_PER_KWH], ?_, ?_⟩
  · intro f1 ds ed hf1 hok hnone
    unfold async_update_data
    simp [hf1, hok, mkSnapshot, hnone]
  · intro f1 msg cause r td f2 ds ed hf1 hfail hauth hr htd htruthy hf2 hok hnone
    unfold async_update_data
    simp [hf1, hfail, hauth, hr, htd, htruthy, hf2, hok, mkSnapshot, hnone]

/-- Witness for C10: a network whose reduction body lacks the key
yields the `750 / 31`-based snapshot. -/
theorem C10_missing_reduction_defaults_to_zero_witness :
    ((fetchBoth ⟨some "t", some "r"⟩ "aid" "d"
        { http := fun _ => ⟨200, ⟨"body", none⟩⟩,
          refreshPost := fun _ => Except.error "x" } 0 0).result =
      Except.ok (⟨"body", none⟩, ⟨"body", none⟩)) ∧
    (async_update_data ⟨some "t", some "r"⟩ "aid" "pc"
        ⟨some "t", some "r", "aid", some "pc"⟩ "d"
        { http := fun _ => ⟨200, ⟨"body", none⟩⟩,
          refreshPost := fun _ => Except.error "x" }).result =
      Except.ok
        { device_status := ⟨"body", none⟩, electricity := ⟨"body", none⟩,
          electricity_usage_kwh := calculate_electricity_usage 0,
          appliance_id := "aid", product_code := "pc" } := by
  refine ⟨by decide, ?_⟩
  have h := (C10_missing_reduction_defaults_to_zero ⟨some "t", some "r"⟩ "aid" "pc"
    ⟨some "t", some "r", "aid", some "pc"⟩ "d"
    { http := fun _ => ⟨200, ⟨"body", none⟩⟩,
      refreshPost := fun _ => Except.error "x" }).2.1 _ ⟨"body", none⟩ ⟨"body", none⟩
    rfl (by decide) rfl
  rw [h]

/-- UTF-8 of an ASCII string is the plain code-point sequence. -/
theorem strToBytes_of_ascii (l : List Char) (h : ∀ c ∈ l, c.toNat < 128) :
    (l.map (fun c => utf8EncodeChar c.toNat)).flatten = l.map Char.toNat := by
  induction l with
  | nil => rfl
  | cons c rest ih =>
    have hc : c.toNat < 128 := h c (by simp)
    have hr : ∀ x ∈ rest, x.toNat < 128 := fun x hx => h x (by simp [hx])
    simp only [List.map_cons, List.flatten_cons]
    rw [show utf8EncodeChar c.toNat = [c.toNat] from by
      unfold utf8EncodeChar; rw [if_pos hc]]
    rw [ih hr]
    rfl

/-- `quote` is the identity on strings made of safe ASCII characters. -/
theorem quoteStr_of_safe (safe : List Nat) (s : String)
    (h : ∀ c ∈ s.data, c.toNat < 128 ∧ isSafeByte safe c.toNat = true) :
    quoteStr safe s = s := by
  have hascii : ∀ c ∈ s.data, c.toNat < 128 := fun c hc => (h c hc).1
  have henc : ∀ (l : List Char), (∀ c ∈ l, c.toNat < 128 ∧ isSafeByte safe c.toNat = true) →
      percentEncodeBytes safe (l.map Char.toNat) = l := by
    intro l hl
    induction l with
    | nil => rfl
    | cons c rest ih =>
      have hc := hl c (by simp)
      have hr : ∀ x ∈ rest, x.toNat < 128 ∧ isSafeByte safe x.toNat = true :=
        fun x hx => hl x (by simp [hx])
      simp only [List.map_cons, percentEncodeBytes, percentEncodeByte, if_pos hc.2,
        Char.ofNat_toNat, List.singleton_append]
      rw [ih hr]
  show String.mk (percentEncodeBytes safe (strToBytes s)) = s
  rw [show strToBytes s = s.data.map Char.toNat from strToBytes_of_ascii s.data hascii]
  rw [henc s.data h]

/-- C9: the authorization URL builder is a pure function of the PKCE
session and fixed constants.  For PKCE values made of safe ASCII
characters (which generated verifier/challenge/state/nonce values are),
the built URL coincides with the spec-side URL in which *every*
query-parameter value is individually percent-encoded before
concatenation; and the client-metadata parameter value carries the two
encoding layers exactly — it is the percent-encoding of the base64 of
the metadata JSON, concretely
`"eyJuYW1lIjoiQXV0aDAuQW5kcm9pZCIsImVudiI6eyJhbmRyb2lkIjoiMzEifSwidmVyc2lvbiI6IjIuNS4wIn0%3D"`. -/
theorem C9_login_url_percent_encoding (code_challenge state nonce : String)
    (h1 : ∀ c ∈ code_challenge.data, c.toNat < 128 ∧ isSafeByte [47] c.toNat = true)
    (h2 : ∀ c ∈ state.data, c.toNat < 128 ∧ isSafeByte [47] c.toNat = true)
    (h3 : ∀ c ∈ nonce.data, c.toNat < 128 ∧ isSafeByte [47] c.toNat = true) :
    generate_login_url code_challenge state nonce =
      generate_login_url_spec code_challenge state nonce ∧
    auth0ClientEncoded =
      quoteStr [47] (String.mk (b64chunks stdAlphabet (strToBytes auth0ClientJson))) ∧
    auth0ClientEncoded =
      "eyJuYW1lIjoiQXV0aDAuQW5kcm9pZCIsImVudiI6eyJhbmRyb2lkIjoiMzEifSwidmVyc2lvbiI6IjIuNS4wIn0%3D" := by
  refine ⟨?_, rfl, by decide⟩
  unfold generate_login_url generate_login_url_spec
  rw [quoteStr_of_safe [47] code_challenge h1, quoteStr_of_safe [47] state h2,
    quoteStr_of_safe [47] nonce h3,
    show quoteStr [47] "code" = "code" by decide,
    show quoteStr [47] "S256" = "S256" by decide,
    show quoteStr [47] AUTH0_CLIENT_ID = AUTH0_CLIENT_ID by decide]

/-- Witness for C9: a concrete URL-safe PKCE triple. -/
theorem C9_login_url_percent_encoding_witness :
    (∀ c ∈ ("ch-4_2" : String).data, c.toNat < 128 ∧ isSafeByte [47] c.toNat = true) ∧
    generate_login_url "ch-4_2" "st1" "n0" = generate_login_url_spec "ch-4_2" "st1" "n0" :=
  ⟨by decide,
   (C9_login_url_percent_encoding "ch-4_2" "st1" "n0"
     (by decide) (by decide) (by decide)).1⟩

/-- The four sextets of a base64 group are below 64. -/
theorem b64_sextet_bounds (b0 b1 b2 : Nat) (h0 : b0 < 256) (h1 : b1 < 256)
    (h2 : b2 < 256) :
    b0 >>> 2 < 64 ∧ (((b0 &&& 3) <<< 4) ||| (b1 >>> 4)) < 64 ∧
    (((b1 &&& 15) <<< 2) ||| (b2 >>> 6)) < 64 ∧ b2 &&& 63 < 64 := by
  have e0 : b0 >>> 2 = b0 / 4 := by rw [Nat.shiftRight_eq_div_pow]
  have ha3 : b0 &&& 3 ≤ 3 := Nat.and_le_right
  have ha15 : b1 &&& 15 ≤ 15 := Nat.and_le_right
  have ha63 : b2 &&& 63 ≤ 63 := Nat.and_le_right
  have s4 : (b0 &&& 3) <<< 4 = (b0 &&& 3) * 16 := by rw [Nat.shiftLeft_eq]
  have s2 : (b1 &&& 15) <<< 2 = (b1 &&& 15) * 4 := by rw [Nat.shiftLeft_eq]
  have r4 : b1 >>> 4 = b1 / 16 := by rw [Nat.shiftRight_eq_div_pow]
  have r6 : b2 >>> 6 = b2 / 64 := by rw [Nat.shiftRight_eq_div_pow]
  refine ⟨by omega, ?_, ?_, by omega⟩
  · have hx : (b0 &&& 3) <<< 4 < 2 ^ 6 := by rw [s4]; norm_num; omega
    have hy : b1 >>> 4 < 2 ^ 6 := by rw [r4]; norm_num; omega
    have := Nat.or_lt_two_pow hx hy
    norm_num at this
    exact this
  · have hx : (b1 &&& 15) <<< 2 < 2 ^ 6 := by rw [s2]; norm_num; omega
    have hy : b2 >>> 6 < 2 ^ 6 := by rw [r6]; norm_num; omega
    have := Nat.or_lt_two_pow hx hy
    norm_num at this
    exact this

/-- Shape of a base64 encoding of input of length ≡ 2 (mod 3): full
quads, then three data characters and exactly one `=`; every data
character comes from the alphabet. -/
theorem b64chunks_structure (alpha : Nat → Char) (bs : List Nat) :
    bs.length % 3 = 2 → (∀ b ∈ bs, b < 256) →
    ∃ ys c1 c2 c3,
      b64chunks alpha bs = ys ++ [c1, c2, c3, '='] ∧
      ys.length = 4 * (bs.length / 3) ∧
      (∀ c ∈ ys ++ [c1, c2, c3], ∃ k, k < 64 ∧ c = alpha k) := by
  induction bs using b64chunks.induct alpha with
  | case1 =>
    intro hlen _
    simp at hlen
  | case2 b0 =>
    intro hlen _
    simp at hlen
  | case3 b0 b1 =>
    intro _ hbytes
    have h0 : b0 < 256 := hbytes b0 (by simp)
    have h1 : b1 < 256 := hbytes b1 (by simp)
    obtain ⟨e1, e2, e3, _⟩ := b64_sextet_bounds b0 b1 0 h0 h1 (by norm_num)
    refine ⟨[], _, _, _, rfl, by simp, ?_⟩
    intro c hc
    simp only [List.nil_append, List.mem_cons, List.not_mem_nil, or_false] at hc
    rcases hc with rfl | rfl | rfl
    · exact ⟨_, e1, rfl⟩
    · exact ⟨_, e2, rfl⟩
    · exact ⟨_, by simpa using e3, rfl⟩
  | case4 b0 b1 b2 rest ih =>
    intro hlen hbytes
    have hlen' : rest.length % 3 = 2 := by
      simp only [List.length_cons] at hlen
      omega
    have hbytes' : ∀ b ∈ rest, b < 256 := fun b hb => hbytes b (by simp [hb])
    obtain ⟨ys, c1, c2, c3, heq, hyslen, hmem⟩ := ih hlen' hbytes'
    have h0 : b0 < 256 := hbytes b0 (by simp)
    have h1 : b1 < 256 := hbytes b1 (by simp)
    have h2 : b2 < 256 := hbytes b2 (by simp)
    obtain ⟨e1, e2, e3, e4⟩ := b64_sextet_bounds b0 b1 b2 h0 h1 h2
    refine ⟨alpha (b0 >>> 2) :: alpha (((b0 &&& 3) <<< 4) ||| (b1 >>> 4)) ::
      alpha (((b1 &&& 15) <<< 2) ||| (b2 >>> 6)) :: alpha (b2 &&& 63) :: ys,
      c1, c2, c3, ?_, ?_, ?_⟩
    · show _ :: _ :: _ :: _ :: b64chunks alpha rest = _
      rw [heq]
      simp
    · simp only [List.length_cons, hyslen, List.length_cons]
      omega
    · intro c hc
      simp only [List.cons_append, List.mem_cons] at hc
      rcases hc with rfl | rfl | rfl | rfl | hc
      · exact ⟨_, e1, rfl⟩
      · exact ⟨_, e2, rfl⟩
      · exact ⟨_, e3, rfl⟩
      · exact ⟨_, e4, rfl⟩
      · exact hmem c (by simpa using hc)

/-- `rstrip("=")` removes exactly the final `=` of such a shape. -/
theorem rstripEq_append (ys : List Char) (c1 c2 c3 : Char) (h : ¬ c3 = '=') :
    rstripEq (ys ++ [c1, c2, c3, '=']) = ys ++ [c1, c2, c3] := by
  unfold rstripEq
  rw [List.reverse_append]
  show (List.dropWhile _ ('=' :: c3 :: c2 :: c1 :: ys.reverse)).reverse = _
  rw [List.dropWhile_cons, List.dropWhile_cons]
  simp only [beq_self_eq_true, if_true, beq_iff_eq, h, if_false]
  simp

/-- No URL-safe alphabet character is `=`. -/
theorem urlAlphabet_ne_eq : ∀ k, k < 64 → ¬ urlAlphabet k = '=' := by decide

/-- Every URL-safe alphabet character is an always-safe URL byte. -/
theorem urlAlphabet_safe : ∀ k, k < 64 →
    isAlwaysSafeByte (urlAlphabet k).toNat = true := by decide

/-- C4: for every PKCE session generated from 32 random bytes, the
code challenge is exactly the padding-stripped URL-safe base64 of the
SHA-256 digest of the verifier's UTF-8 bytes, and the verifier is a
URL-safe string of length at least 43 (in fact exactly 43), obtained
by URL-safe base64 of the 32 random bytes with padding stripped. -/
theorem C4_pkce_verifier_challenge (rnd : List Nat) (stateTok nonceTok : String)
    (hlen : rnd.length = 32) (hbytes : ∀ b ∈ rnd, b < 256) :
    (generate_pkce rnd stateTok nonceTok).2.1 =
      String.mk (rstripEq (b64chunks urlAlphabet
        (sha256 (strToBytes (generate_pkce rnd stateTok nonceTok).1)))) ∧
    43 ≤ (generate_pkce rnd stateTok nonceTok).1.length ∧
    (∀ c ∈ (generate_pkce rnd stateTok nonceTok).1.data,
      isAlwaysSafeByte c.toNat = true) := by
  obtain ⟨ys, c1, c2, c3, heq, hyslen, hmem⟩ :=
    b64chunks_structure urlAlphabet rnd (by rw [hlen]) hbytes
  have hc3 : ¬ c3 = '=' := by
    obtain ⟨k, hk, hck⟩ := hmem c3 (by simp)
    rw [hck]
    exact urlAlphabet_ne_eq k hk
  refine ⟨rfl, ?_, ?_⟩
  · show 43 ≤ (String.mk (rstripEq (b64chunks urlAlphabet rnd))).length
    rw [heq, rstripEq_append ys c1 c2 c3 hc3]
    simp only [String.length_mk, List.length_append, List.length_cons,
      List.length_nil, hyslen, hlen]
    omega
  · intro c hc
    have hc2 : c ∈ ys ++ [c1, c2, c3] := by
      have : (generate_pkce rnd stateTok nonceTok).1.data =
          rstripEq (b64chunks urlAlphabet rnd) := rfl
      rw [this, heq, rstripEq_append ys c1 c2 c3 hc3] at hc
      exact hc
    obtain ⟨k, hk, hck⟩ := hmem c hc2
    rw [hck]
    exact urlAlphabet_safe k hk

/-- Witness for C4: 32 concrete bytes produce a 43-character verifier. -/
theorem C4_pkce_verifier_challenge_witness :
    (List.range 32).length = 32 ∧
    43 ≤ (generate_pkce (List.range 32) "s" "n").1.length :=
  ⟨by decide,
   (C4_pkce_verifier_challenge (List.range 32) "s" "n" (by decide) (by decide)).2.1⟩

end PanasonicJapan
